import Mathlib

/-!
Verification of the pantin screenshot service core against its specification.

The definitions below are a shallow embedding of the Rust sources:

* `Pantin.response` embeds `crates/marionette/src/response.rs` (framed codec decode),
* `Pantin.request` embeds `crates/marionette/src/request.rs` (framed codec encode, send),
* `Pantin.Handshake` embeds `crates/marionette/src/handshake.rs`,
* `Pantin.browser` embeds `crates/browser/src/browser.rs` (url validation, viewport sizing),
* `Pantin.api` embeds `crates/server/src/api.rs` (HTTP error mapping),
* `Pantin.server` embeds `crates/server/src/server.rs` (background eviction loop).

Byte streams are modelled explicitly: an asynchronous read stream is a list of
chunks, the n-th chunk being the bytes that the n-th successful call to
`stream.read` would deliver (capped by the caller-supplied buffer size, as the
real `AsyncReadExt::read` caps at the buffer length).  An exhausted list models
end of stream (`read` returning 0).  All state passing is explicit.
-/

namespace Pantin

namespace response

/-- Body of a Marionette failure envelope, `response.rs` lines 119-124. -/
structure Failure where
  error : String
  message : String
  stacktrace : String
deriving DecidableEq

/-- Error type of `crates/marionette/src/response.rs` lines 15-33.  IO error
payloads carry no information relevant to the claims and are dropped. -/
inductive Error where
  | readByteCount
  | readByteCountLength (count : Nat)
  | unexpectedByte (byte : Nat)
  | unexpectedEndOfResponse
  | readByte
  | responseToString
  | parseResponse
  | commandFailure (id : Nat) (failure : Failure)
deriving DecidableEq

/-- Total number of bytes still deliverable by a chunked stream. -/
def totalLen (s : List (List Nat)) : Nat :=
  (s.map List.length).sum

/-- Remaining stream after the head chunk `l` delivered its first `n` bytes:
what `l` still holds stays at the front; a fully delivered chunk disappears. -/
def consume (l : List Nat) (n : Nat) (rest : List (List Nat)) : List (List Nat) :=
  if (l.drop n).isEmpty then rest else l.drop n :: rest

theorem totalLen_consume_lt (l : List Nat) (n : Nat) (rest : List (List Nat))
    (hl : l ≠ []) (hn : 0 < n) : totalLen (consume l n rest) < totalLen (l :: rest) := by
  have hlen : 0 < l.length := List.length_pos.mpr hl
  by_cases h : (l.drop n).isEmpty
  · simp [consume, h, totalLen]
    omega
  · simp [consume, h, totalLen]
    omega

/-- Loop body of `read_length` (`response.rs` lines 45-68): read one byte at a
time; ASCII digits accumulate into the length, a colon (byte 58) terminates,
anything else is `UnexpectedByte`; a read returning no byte is
`UnexpectedEndOfResponse`.  The accumulator starts at 0 in `read_length`. -/
def read_length_loop (acc : Nat) : List (List Nat) → Except Error (Nat × List (List Nat))
  | [] => .error .unexpectedEndOfResponse
  | [] :: _ => .error .unexpectedEndOfResponse
  | (b :: c) :: rest =>
    if 48 ≤ b ∧ b ≤ 57 then
      read_length_loop (acc * 10 + (b - 48)) (consume (b :: c) 1 rest)
    else if b = 58 then
      .ok (acc, consume (b :: c) 1 rest)
    else
      .error (.unexpectedByte b)
termination_by s => totalLen s
decreasing_by
  exact totalLen_consume_lt (b :: c) 1 rest (by simp) (by omega)

/-- Embedding of `read_length` (`response.rs` lines 45-68). -/
def read_length (s : List (List Nat)) : Except Error (Nat × List (List Nat)) :=
  read_length_loop 0 s

/-- Loop of `read_string` (`response.rs` lines 82-102): while fewer than
`bytes` bytes have been read, issue a read with an 8192-byte buffer and append
everything it returns to the payload.  Note the loop appends the whole chunk
even when that overshoots `bytes`; this is exactly what the source does. -/
def read_string_loop (bytes : Nat) (payload : List Nat) (total : Nat) :
    List (List Nat) → Except Error (List Nat × List (List Nat))
  | [] =>
    if total < bytes then .error .unexpectedEndOfResponse else .ok (payload, [])
  | [] :: rest =>
    if total < bytes then .error .unexpectedEndOfResponse else .ok (payload, [] :: rest)
  | (b :: c) :: rest =>
    if total < bytes then
      read_string_loop bytes (payload ++ (b :: c).take 8192)
        (total + ((b :: c).take 8192).length) (consume (b :: c) 8192 rest)
    else
      .ok (payload, (b :: c) :: rest)
termination_by s => totalLen s
decreasing_by
  exact totalLen_consume_lt (b :: c) 8192 rest (by simp) (by omega)

/-- Embedding of `read_string` (`response.rs` lines 82-102), at the byte level:
the Rust function finally converts the payload to UTF-8, which preserves the
byte sequence, so the model stops at the byte vector. -/
def read_string (s : List (List Nat)) (bytes : Nat) :
    Except Error (List Nat × List (List Nat)) :=
  read_string_loop bytes [] 0 s

/-- Embedding of `read` (`response.rs` lines 112-116): decode the length
prefix, then read that many bytes. -/
def read (s : List (List Nat)) : Except Error (List Nat × List (List Nat)) :=
  match read_length s with
  | .error e => .error e
  | .ok (bytes, s') => read_string s' bytes

theorem read_length_loop_digits (ds : List Nat) (acc : Nat) (rest : List Nat)
    (more : List (List Nat)) (h : ∀ b ∈ ds, 48 ≤ b ∧ b ≤ 57) :
    read_length_loop acc ((ds ++ 58 :: rest) :: more) =
      .ok (ds.foldl (fun a b => a * 10 + (b - 48)) acc,
           if rest.isEmpty then more else rest :: more) := by
  induction ds generalizing acc with
  | nil =>
    rw [List.nil_append, read_length_loop]
    norm_num [consume]
  | cons d ds ih =>
    have hd := h d (by simp)
    rw [List.cons_append, read_length_loop, if_pos hd]
    have hne : ds ++ 58 :: rest ≠ [] := by simp
    rw [show consume (d :: (ds ++ 58 :: rest)) 1 more = (ds ++ 58 :: rest) :: more by
      simp [consume, hne]]
    rw [ih _ fun b hb => h b (by simp [hb])]
    simp

theorem read_length_loop_all_digits (ds : List Nat) (acc : Nat)
    (h : ∀ b ∈ ds, 48 ≤ b ∧ b ≤ 57) :
    read_length_loop acc [ds] = .error .unexpectedEndOfResponse := by
  induction ds generalizing acc with
  | nil => rw [read_length_loop]
  | cons d ds ih =>
    have hd := h d (by simp)
    rw [read_length_loop, if_pos hd]
    by_cases hds : ds = []
    · subst hds
      rw [show consume [d] 1 [] = [] by simp [consume], read_length_loop]
    · rw [show consume (d :: ds) 1 [] = [ds] by simp [consume, hds]]
      exact ih _ fun b hb => h b (by simp [hb])

theorem foldl_digits_eq_ofDigits (ds : List Nat) (acc : Nat) :
    ds.foldl (fun a b => a * 10 + (b - 48)) acc =
      acc * 10 ^ ds.length + Nat.ofDigits 10 ((ds.map fun b => b - 48)).reverse := by
  induction ds generalizing acc with
  | nil => simp [Nat.ofDigits]
  | cons d ds ih =>
    rw [List.foldl_cons, ih (acc * 10 + (d - 48))]
    simp only [List.map_cons, List.reverse_cons, Nat.ofDigits_append, List.length_cons,
      List.length_reverse, List.length_map, Nat.ofDigits_singleton]
    ring

theorem read_string_loop_step (bytes : Nat) (payload : List Nat) (total : Nat)
    (b : Nat) (c : List Nat) (rest : List (List Nat)) (h : total < bytes)
    (hc : c.length + 1 ≤ 8192) :
    read_string_loop bytes payload total ((b :: c) :: rest) =
      read_string_loop bytes (payload ++ (b :: c)) (total + (c.length + 1)) rest := by
  have ht : (b :: c).take 8192 = b :: c := List.take_of_length_le (by simpa using hc)
  have hdrop : (b :: c).drop 8192 = [] := List.drop_eq_nil_of_le (by simpa using hc)
  rw [read_string_loop, if_pos h, ht]
  simp [consume, hdrop]

theorem read_string_loop_finish (bytes : Nat) (payload : List Nat) (total : Nat)
    (s : List (List Nat)) (h : ¬ total < bytes) :
    read_string_loop bytes payload total s = .ok (payload, s) := by
  cases s with
  | nil => rw [read_string_loop, if_neg h]
  | cons c rest =>
    cases c with
    | nil => rw [read_string_loop, if_neg h]
    | cons b c => rw [read_string_loop, if_neg h]

end response

/-- C7: the frame length decoder reads one byte at a time; decimal digit bytes
accumulate into the length (the result is the decimal value of the digit
prefix), a colon byte (58) terminates it leaving the remaining bytes on the
stream, any other byte yields `UnexpectedByte` with that byte, end of stream
before the colon yields `UnexpectedEndOfResponse`, and the input "0:" decodes
to the empty payload. -/
theorem C7_read_length_behavior :
    (∀ ds rest more, (∀ b ∈ ds, 48 ≤ b ∧ b ≤ 57) →
      response.read_length ((ds ++ 58 :: rest) :: more) =
        .ok (Nat.ofDigits 10 ((ds.map fun b => b - 48)).reverse,
             if rest.isEmpty then more else rest :: more))
  ∧ (∀ b c rest, ¬ (48 ≤ b ∧ b ≤ 57) → b ≠ 58 →
      response.read_length ((b :: c) :: rest) = .error (.unexpectedByte b))
  ∧ (∀ ds, (∀ b ∈ ds, 48 ≤ b ∧ b ≤ 57) →
      response.read_length [ds] = .error .unexpectedEndOfResponse)
  ∧ response.read_length [] = .error .unexpectedEndOfResponse
  ∧ response.read [[48, 58]] = .ok ([], []) := by
  refine ⟨?_, ?_, ?_, ?_, ?_⟩
  · intro ds rest more h
    rw [response.read_length, response.read_length_loop_digits ds 0 rest more h,
      response.foldl_digits_eq_ofDigits]
    simp
  · intro b c rest hnd hnc
    rw [response.read_length, response.read_length_loop, if_neg hnd, if_neg hnc]
  · intro ds h
    exact response.read_length_loop_all_digits ds 0 h
  · rw [response.read_length, response.read_length_loop]
  · have h := response.read_length_loop_digits [48] 0 [] [] (by decide)
    unfold response.read response.read_length response.read_string
    norm_num at h
    rw [h]
    show response.read_string_loop 0 [] 0 [] = Except.ok ([], [])
    exact response.read_string_loop_finish 0 [] 0 [] (by norm_num)

/-- Witness for C7 at concrete inputs: "51:H" yields length 51 with "H" left
on the stream, a non-digit byte fails with that byte, digits followed by end
of stream fail with `UnexpectedEndOfResponse`. -/
theorem C7_witness :
    response.read_length [[53, 49, 58, 72]] = .ok (51, [[72]])
  ∧ response.read_length [[88, 58]] = .error (.unexpectedByte 88)
  ∧ response.read_length [[53]] = .error .unexpectedEndOfResponse := by
  refine ⟨?_, ?_, ?_⟩
  · have h := C7_read_length_behavior.1 [53, 49] [72] [] (by decide)
    norm_num [Nat.ofDigits] at h
    simpa using h
  · exact C7_read_length_behavior.2.1 88 [58] [] (by decide) (by decide)
  · exact C7_read_length_behavior.2.2.1 [53] (by decide)

/-- C1 fails on the code: the payload loop of `read_string` reads into a full
8192-byte buffer and appends everything a read returns, so when the transport
delivers the bytes of two back-to-back frames "5:Hello" and "5:World" in a
single chunk, the frame reader returns a 12-byte payload "Hello5:World" and
consumes the second frame (first conjunct), instead of exactly the 5 declared
bytes.  The declared behavior only happens when the chunk boundaries line up
with the frame (second and third conjuncts: the same fourteen bytes delivered
as "5:Hello" then "5:World" decode to "Hello" and then "World"). -/
theorem C1_read_overreads_frame :
    response.read [[53, 58, 72, 101, 108, 108, 111, 53, 58, 87, 111, 114, 108, 100]] =
      .ok ([72, 101, 108, 108, 111, 53, 58, 87, 111, 114, 108, 100], [])
  ∧ response.read [[53, 58, 72, 101, 108, 108, 111], [53, 58, 87, 111, 114, 108, 100]] =
      .ok ([72, 101, 108, 108, 111], [[53, 58, 87, 111, 114, 108, 100]])
  ∧ response.read [[53, 58, 87, 111, 114, 108, 100]] =
      .ok ([87, 111, 114, 108, 100], []) := by
  refine ⟨?_, ?_, ?_⟩
  · have h := response.read_length_loop_digits [53] 0
      [72, 101, 108, 108, 111, 53, 58, 87, 111, 114, 108, 100] [] (by decide)
    norm_num at h
    unfold response.read response.read_length response.read_string
    rw [h]
    show response.read_string_loop 5 [] 0
      [[72, 101, 108, 108, 111, 53, 58, 87, 111, 114, 108, 100]] = _
    rw [response.read_string_loop_step 5 [] 0 72
      [101, 108, 108, 111, 53, 58, 87, 111, 114, 108, 100] [] (by norm_num) (by norm_num)]
    rw [response.read_string_loop_finish _ _ _ _ (by norm_num)]
    norm_num
  · have h := response.read_length_loop_digits [53] 0 [72, 101, 108, 108, 111]
      [[53, 58, 87, 111, 114, 108, 100]] (by decide)
    norm_num at h
    unfold response.read response.read_length response.read_string
    rw [h]
    show response.read_string_loop 5 [] 0
      [[72, 101, 108, 108, 111], [53, 58, 87, 111, 114, 108, 100]] = _
    rw [response.read_string_loop_step 5 [] 0 72 [101, 108, 108, 111]
      [[53, 58, 87, 111, 114, 108, 100]] (by norm_num) (by norm_num)]
    rw [response.read_string_loop_finish _ _ _ _ (by norm_num)]
    norm_num
  · have h := response.read_length_loop_digits [53] 0 [87, 111, 114, 108, 100] [] (by decide)
    norm_num at h
    unfold response.read response.read_length response.read_string
    rw [h]
    show response.read_string_loop 5 [] 0 [[87, 111, 114, 108, 100]] = _
    rw [response.read_string_loop_step 5 [] 0 87 [111, 114, 108, 100] []
      (by norm_num) (by norm_num)]
    rw [response.read_string_loop_finish _ _ _ _ (by norm_num)]
    norm_num

namespace response

/-- Decoded response envelope (`response.rs` lines 129-134).  The untagged
serde enum accepts `[1, id, null, result]` as `Success` and
`[1, id, {error, message, stacktrace}, null]` as `Failure`; the leading
direction byte is carried but unused by the source. -/
inductive Response (T : Type) where
  | success (direction : Nat) (id : Nat) (result : T)
  | failure (direction : Nat) (id : Nat) (failure : Failure)
deriving DecidableEq

/-- Embedding of `parse` (`response.rs` lines 164-172) on the decoded
envelope: a success envelope yields the pair (id, result), a failure envelope
yields `CommandFailure` with the envelope id and failure body.  The JSON
deserialization step (external serde) is abstracted: the envelope is the
decoded value. -/
def parse {T : Type} (r : Response T) : Except Error (Nat × T) :=
  match r with
  | .success _ id t => .ok (id, t)
  | .failure _ id f => .error (.commandFailure id f)

end response

namespace request

/-- Error type of `crates/marionette/src/request.rs` lines 14-24. -/
inductive Error where
  | convertJson
  | failedToWriteRequest
  | commandIdMismatch (request_id : Nat) (response_id : Nat)
  | response (e : response.Error)
deriving DecidableEq

/-- Decimal ASCII digit bytes of a natural number, as produced by
`format!("{}", n)`. -/
def asciiOfNat (n : Nat) : List Nat :=
  (Nat.toDigits 10 n).map Char.toNat

/-- Frame emitted for a serialized body: `format!("{}:{}", body.len(), body)`
(`request.rs` line 56), i.e. the decimal byte length, a colon, the body. -/
def frame (body : List Nat) : List Nat :=
  asciiOfNat body.length ++ 58 :: body

/-- Outcome of the single `stream.write` call issued by `write`: either an IO
error, or acceptance of up to `count` bytes (a short write when `count` is
less than the buffer length, which `AsyncWriteExt::write` reports through its
`Ok` byte count). -/
inductive WriteCall where
  | ioError
  | accept (count : Nat)
deriving DecidableEq

/-- Embedding of `write` (`request.rs` lines 48-66).  The request id comes
from the process-wide counter inside `Command::new_request` and is a
parameter here; the serialized JSON body is a parameter (serde is external,
and the `ConvertJson` branch concerns only serialization failures).  The
function issues exactly one `stream.write` of the frame and returns
(result, bytes actually transmitted).  The source maps an `Err` to
`FailedToWriteRequest` and otherwise discards the returned byte count, so an
accepted short write still produces `Ok(id)`. -/
def write (call : WriteCall) (id : Nat) (body : List Nat) :
    Except Error Nat × List Nat :=
  match call with
  | .ioError => (.error .failedToWriteRequest, [])
  | .accept k => (.ok id, (frame body).take k)

/-- Embedding of the response handling in `send` (`request.rs` lines 88-107):
after `write` returned `request_id` and one frame was read and decoded to the
envelope `r`, `parse` either surfaces `CommandFailure` (converted into
`Error::Response` by the `?` operator through `#[from]`), or yields
(response_id, result); a mismatched id yields `CommandIdMismatch`, otherwise
the typed result is returned. -/
def send {T : Type} (request_id : Nat) (r : response.Response T) : Except Error T :=
  match response.parse r with
  | .error e => .error (.response e)
  | .ok (response_id, t) =>
    if request_id = response_id then .ok t
    else .error (.commandIdMismatch request_id response_id)

end request

/-- C4: for every command round-trip, a failure envelope yields
`CommandFailure` with the envelope id and {error, message, stacktrace} body; a
success envelope whose id differs from the allocated request id yields
`CommandIdMismatch{expected, got}`; otherwise the typed success payload is
returned. -/
theorem C4_send_envelope_dispatch :
    ∀ (T : Type) (r i d : Nat) (f : response.Failure) (t : T),
      (request.send r (response.Response.failure d i f : response.Response T)
        = .error (.response (.commandFailure i f)))
    ∧ (i ≠ r → request.send r (response.Response.success d i t)
        = .error (.commandIdMismatch r i))
    ∧ (request.send r (response.Response.success d r t) = .ok t) := by
  intro T r i d f t
  refine ⟨rfl, ?_, ?_⟩
  · intro h
    simp only [request.send, response.parse]
    rw [if_neg fun hh => h hh.symm]
  · simp [request.send, response.parse]

/-- Witness for C4 at concrete inputs: request id 1 against a failure
envelope, a success envelope with id 2, and a success envelope with id 1. -/
theorem C4_witness :
    (request.send 1 (response.Response.failure 1 5 ⟨"e", "m", "t"⟩ : response.Response Nat)
      = .error (.response (.commandFailure 5 ⟨"e", "m", "t"⟩)))
  ∧ (request.send 1 (response.Response.success 1 2 (42 : Nat))
      = .error (.commandIdMismatch 1 2))
  ∧ (request.send 1 (response.Response.success 1 1 (42 : Nat)) = .ok 42) := by
  have h1 := C4_send_envelope_dispatch Nat 1 5 1 ⟨"e", "m", "t"⟩ 42
  have h2 := C4_send_envelope_dispatch Nat 1 2 1 ⟨"e", "m", "t"⟩ 42
  exact ⟨h1.1, h2.2.1 (by decide), h2.2.2⟩

/-- C5 as stated is false on the code: the stream accepts a single byte of
the five-byte frame "3:abc" (a short write), yet `write` returns success
(the request id), because the source discards the byte count returned by
`stream.write`.  Only one byte (the digit 51, the ASCII "3") was
transmitted. -/
theorem C5_short_write_not_failure :
    request.write (.accept 1) 7 [97, 98, 99] = (.ok 7, [51])
  ∧ (request.frame [97, 98, 99]).length = 5 := by
  constructor
  · rfl
  · rfl

/-- C5 amended: the writer emits the frame `<decimal byte length>:<JSON>` with
a single write to the stream; an IO error of that write surfaces as
`FailedToWriteRequest`, a write accepted in full transmits exactly the frame,
but a short write (fewer bytes accepted than the frame holds) is silently
ignored: the result is still `Ok(id)` with only a prefix transmitted. -/
theorem C5_write_behavior :
    ∀ (id k : Nat) (body : List Nat),
      (request.write .ioError id body = (.error .failedToWriteRequest, []))
    ∧ (request.write (.accept k) id body = (.ok id, (request.frame body).take k))
    ∧ (request.write (.accept (request.frame body).length) id body
        = (.ok id, request.asciiOfNat body.length ++ 58 :: body)) := by
  intro id k body
  refine ⟨rfl, rfl, ?_⟩
  simp [request.write, request.frame]

/-- Handshake message (`handshake.rs` lines 33-38), deserialized from the
camelCase JSON keys `marionetteProtocol` and `applicationType`. -/
structure Handshake where
  marionette_protocol : Nat
  application_type : String
deriving DecidableEq

/-- Error type of `crates/marionette/src/handshake.rs` lines 15-23. -/
inductive HandshakeError where
  | parseResponse (e : response.Error)
  | unexpectedApplicationType (t : String)
  | unexpectedMarionetteProtocolVersion (v : Nat)
deriving DecidableEq

/-- Embedding of the validation in `Handshake::read` (`handshake.rs` lines
58-75) on the decoded handshake object (frame reading and JSON decoding are
abstracted; their failures surface as `parseResponse`): the application type
is checked first, then the protocol version. -/
def Handshake.read (h : Handshake) : Except HandshakeError Handshake :=
  if h.application_type ≠ "gecko" then
    .error (.unexpectedApplicationType h.application_type)
  else if h.marionette_protocol ≠ 3 then
    .error (.unexpectedMarionetteProtocolVersion h.marionette_protocol)
  else
    .ok h

/-- C6: handshake validation succeeds exactly when the decoded object has
applicationType "gecko" and marionetteProtocol 3; any other application type
fails with `UnexpectedApplicationType` (that check runs first), and with the
application type right, any other protocol version fails with
`UnexpectedMarionetteProtocolVersion` — two distinguishable errors. -/
theorem C6_handshake_validation :
    ∀ h : Handshake,
      (Handshake.read h = .ok h ↔
        (h.application_type = "gecko" ∧ h.marionette_protocol = 3))
    ∧ (h.application_type ≠ "gecko" →
        Handshake.read h = .error (.unexpectedApplicationType h.application_type))
    ∧ (h.application_type = "gecko" → h.marionette_protocol ≠ 3 →
        Handshake.read h
          = .error (.unexpectedMarionetteProtocolVersion h.marionette_protocol)) := by
  intro h
  refine ⟨?_, ?_, ?_⟩
  · unfold Handshake.read
    split_ifs with h1 h2
    · simp [h1]
    · simp [h2]
    · simp_all
  · intro h1
    unfold Handshake.read
    rw [if_pos h1]
  · intro h1 h2
    unfold Handshake.read
    rw [if_neg (by simp [h1]), if_pos h2]

/-- Witness for C6 at concrete handshakes: the gecko/3 handshake is accepted,
application type "chrome" is rejected as such, protocol 2 is rejected as
such. -/
theorem C6_witness :
    Handshake.read ⟨3, "gecko"⟩ = .ok ⟨3, "gecko"⟩
  ∧ Handshake.read ⟨3, "chrome"⟩ = .error (.unexpectedApplicationType "chrome")
  ∧ Handshake.read ⟨2, "gecko"⟩ = .error (.unexpectedMarionetteProtocolVersion 2) := by
  refine ⟨?_, ?_, ?_⟩
  · exact (C6_handshake_validation ⟨3, "gecko"⟩).1.mpr (by exact ⟨rfl, rfl⟩)
  · exact (C6_handshake_validation ⟨3, "chrome"⟩).2.1 (by decide)
  · exact (C6_handshake_validation ⟨2, "gecko"⟩).2.2 rfl (by decide)

/-- Error type of `crates/marionette/src/marionette.rs` lines 21-33.  The
timeout payload details are irrelevant to the claims. -/
inductive MarionetteError where
  | connectionTimeout (address : String)
  | handshake (e : HandshakeError)
  | request (e : request.Error)
deriving DecidableEq

namespace browser

/-- Parsed URL as produced by the external url crate: its scheme and its
normalized serialization (what `Url::into::<String>` returns). -/
structure ParsedUrl where
  scheme : String
  serialization : String
deriving DecidableEq

/-- Parse errors of the external url crate as `parse_url` distinguishes them:
the `RelativeUrlWithoutBase` variant triggers the retry, every other variant
is carried with its display message. -/
inductive ParseError where
  | relativeUrlWithoutBase
  | other (message : String)
deriving DecidableEq

/-- Display message of a url-crate parse error; the relative variant displays
"relative URL without a base" in the url crate. -/
def ParseError.libMessage : ParseError → String
  | .relativeUrlWithoutBase => "relative URL without a base"
  | .other m => m

/-- Abstract model of the external `Url::parse`: a function from strings to a
parsed URL or a parse error.  Facts the url crate guarantees (such as
round-tripping its own serialization) are stated as hypotheses where
needed. -/
structure UrlLib where
  parse : String → Except ParseError ParsedUrl

/-- Error type of `crates/browser/src/browser.rs` lines 21-39.  Payloads of
variants irrelevant to the claims are dropped. -/
inductive Error where
  | profile
  | process
  | marionette (e : MarionetteError)
  | serdeJson
  | childStatus (s : String)
  | decodeScreenshot
  | parseUrl (e : ParseError)
  | unsupportedUrlProtocol
deriving DecidableEq

/-- Embedding of `parse_url` (`browser.rs` lines 420-432) over an abstract
url library.  The source recurses after prepending "https://" when parsing
fails with `RelativeUrlWithoutBase`; with the real url crate a string
starting with "https://" always has a base, so the recursion depth is at
most two.  The fuel argument makes that termination explicit; the
fuel-exhausted branch is unreachable for any such library. -/
def parse_url_fuel (lib : UrlLib) : Nat → String → Except Error String
  | 0, _ => .error (.parseUrl .relativeUrlWithoutBase)
  | fuel + 1, url =>
    match lib.parse url with
    | .ok u =>
      if u.scheme = "http" ∨ u.scheme = "https" then .ok u.serialization
      else .error .unsupportedUrlProtocol
    | .error .relativeUrlWithoutBase => parse_url_fuel lib fuel ("https://" ++ url)
    | .error e => .error (.parseUrl e)

/-- Embedding of `parse_url` at its call sites: the recursion runs with
enough fuel for the one retry the url crate can trigger. -/
def parse_url (lib : UrlLib) (url : String) : Except Error String :=
  parse_url_fuel lib 2 url

/-- Url-crate guarantee used by the idempotence claim: parsing the
serialization of a parsed URL yields that same parsed URL. -/
def UrlLib.RoundTrip (lib : UrlLib) : Prop :=
  ∀ s u, lib.parse s = .ok u → lib.parse u.serialization = .ok u

theorem parse_url_fuel_succ (lib : UrlLib) (fuel : Nat) (url : String) :
    parse_url_fuel lib (fuel + 1) url =
      match lib.parse url with
      | .ok u =>
        if u.scheme = "http" ∨ u.scheme = "https" then .ok u.serialization
        else .error .unsupportedUrlProtocol
      | .error .relativeUrlWithoutBase => parse_url_fuel lib fuel ("https://" ++ url)
      | .error e => .error (.parseUrl e) := rfl

theorem parse_url_fuel_of_ok (lib : UrlLib) (url : String) (u : ParsedUrl)
    (h : lib.parse url = .ok u) (fuel : Nat) :
    parse_url_fuel lib (fuel + 1) url =
      if u.scheme = "http" ∨ u.scheme = "https" then .ok u.serialization
      else .error .unsupportedUrlProtocol := by
  rw [parse_url_fuel_succ, h]

theorem parse_url_fuel_of_relative (lib : UrlLib) (url : String)
    (h : lib.parse url = .error .relativeUrlWithoutBase) (fuel : Nat) :
    parse_url_fuel lib (fuel + 1) url = parse_url_fuel lib fuel ("https://" ++ url) := by
  rw [parse_url_fuel_succ, h]

theorem parse_url_fuel_of_other (lib : UrlLib) (url : String) (m : String)
    (h : lib.parse url = .error (.other m)) (fuel : Nat) :
    parse_url_fuel lib (fuel + 1) url = .error (.parseUrl (.other m)) := by
  rw [parse_url_fuel_succ, h]

end browser

/-- C8: `parse_url` parses its input with the url library; an accepted URL
must have scheme http or https (its normalized serialization is returned),
any other scheme yields `UnsupportedUrlProtocol`; a failure other than
`RelativeUrlWithoutBase` yields `ParseUrl`; on `RelativeUrlWithoutBase` it
prepends "https://" and reparses once, with the same scheme checks.  Under
the url-crate facts for the two literals, "about:config" (scheme "about")
yields `UnsupportedUrlProtocol` and "example.com" is rewritten to
"https://example.com/". -/
theorem C8_parse_url_behavior :
    ∀ (lib : browser.UrlLib) (url : String),
      (∀ u, lib.parse url = .ok u →
        ((u.scheme = "http" ∨ u.scheme = "https") →
          browser.parse_url lib url = .ok u.serialization)
        ∧ (¬ (u.scheme = "http" ∨ u.scheme = "https") →
          browser.parse_url lib url = .error .unsupportedUrlProtocol))
    ∧ (∀ m, lib.parse url = .error (.other m) →
        browser.parse_url lib url = .error (.parseUrl (.other m)))
    ∧ (lib.parse url = .error .relativeUrlWithoutBase →
        ∀ u, lib.parse ("https://" ++ url) = .ok u →
          ((u.scheme = "http" ∨ u.scheme = "https") →
            browser.parse_url lib url = .ok u.serialization)
          ∧ (¬ (u.scheme = "http" ∨ u.scheme = "https") →
            browser.parse_url lib url = .error .unsupportedUrlProtocol))
    ∧ (lib.parse "about:config" = .ok ⟨"about", "about:config"⟩ →
        browser.parse_url lib "about:config" = .error .unsupportedUrlProtocol)
    ∧ (lib.parse "example.com" = .error .relativeUrlWithoutBase →
        lib.parse "https://example.com" = .ok ⟨"https", "https://example.com/"⟩ →
        browser.parse_url lib "example.com" = .ok "https://example.com/") := by
  intro lib url
  refine ⟨?_, ?_, ?_, ?_, ?_⟩
  · intro u hu
    rw [browser.parse_url, show (2 : Nat) = 1 + 1 from rfl,
      browser.parse_url_fuel_of_ok lib url u hu 1]
    constructor
    · intro hs; rw [if_pos hs]
    · intro hs; rw [if_neg hs]
  · intro m hm
    rw [browser.parse_url, show (2 : Nat) = 1 + 1 from rfl,
      browser.parse_url_fuel_of_other lib url m hm 1]
  · intro hrel u hu
    rw [browser.parse_url, show (2 : Nat) = 1 + 1 from rfl,
      browser.parse_url_fuel_of_relative lib url hrel 1,
      show (1 : Nat) = 0 + 1 from rfl,
      browser.parse_url_fuel_of_ok lib _ u hu 0]
    constructor
    · intro hs; rw [if_pos hs]
    · intro hs; rw [if_neg hs]
  · intro h
    rw [browser.parse_url, show (2 : Nat) = 1 + 1 from rfl,
      browser.parse_url_fuel_of_ok lib _ _ h 1, if_neg (by decide)]
  · intro h1 h2
    have happ : ("https://" ++ "example.com" : String) = "https://example.com" := rfl
    rw [browser.parse_url, show (2 : Nat) = 1 + 1 from rfl,
      browser.parse_url_fuel_of_relative lib _ h1 1, happ,
      show (1 : Nat) = 0 + 1 from rfl,
      browser.parse_url_fuel_of_ok lib _ _ h2 0, if_pos (by norm_num)]

/-- Concrete url-library fragment recording the url-crate behavior on the
literals of the C8 boundary examples. -/
def urlLibExample : browser.UrlLib :=
  ⟨fun s =>
    if s = "about:config" then .ok ⟨"about", "about:config"⟩
    else if s = "https://example.com" then .ok ⟨"https", "https://example.com/"⟩
    else .error .relativeUrlWithoutBase⟩

/-- Witness for C8 on the concrete library fragment: "about:config" is
rejected for its scheme and "example.com" is rewritten. -/
theorem C8_witness :
    browser.parse_url urlLibExample "about:config" = .error .unsupportedUrlProtocol
  ∧ browser.parse_url urlLibExample "example.com" = .ok "https://example.com/" := by
  have h1 := C8_parse_url_behavior urlLibExample "about:config"
  have h2 := C8_parse_url_behavior urlLibExample "example.com"
  exact ⟨h1.2.2.2.1 (by rfl), h2.2.2.2.2 (by rfl) (by rfl)⟩

/-- C9: for every accepted input, `parse_url` is idempotent — applying it to
the normalized string it returned yields that same string — given the
url-crate guarantee that parsing a serialization returns the parsed URL it
came from. -/
theorem C9_parse_url_idempotent :
    ∀ (lib : browser.UrlLib) (u s : String), lib.RoundTrip →
      browser.parse_url lib u = .ok s → browser.parse_url lib s = .ok s := by
  intro lib u s hrt h
  rw [browser.parse_url, show (2 : Nat) = 1 + 1 from rfl] at h
  cases hu : lib.parse u with
  | ok pu =>
    rw [browser.parse_url_fuel_of_ok lib u pu hu 1] at h
    by_cases hs : pu.scheme = "http" ∨ pu.scheme = "https"
    · rw [if_pos hs] at h
      simp only [Except.ok.injEq] at h
      subst h
      rw [browser.parse_url, show (2 : Nat) = 1 + 1 from rfl,
        browser.parse_url_fuel_of_ok lib _ pu (hrt u pu hu) 1, if_pos hs]
    · rw [if_neg hs] at h
      exact absurd h (by simp)
  | error e =>
    cases e with
    | other m =>
      rw [browser.parse_url_fuel_of_other lib u m hu 1] at h
      exact absurd h (by simp)
    | relativeUrlWithoutBase =>
      rw [browser.parse_url_fuel_of_relative lib u hu 1,
        show (1 : Nat) = 0 + 1 from rfl] at h
      cases hu2 : lib.parse ("https://" ++ u) with
      | ok pu =>
        rw [browser.parse_url_fuel_of_ok lib _ pu hu2 0] at h
        by_cases hs : pu.scheme = "http" ∨ pu.scheme = "https"
        · rw [if_pos hs] at h
          simp only [Except.ok.injEq] at h
          subst h
          rw [browser.parse_url, show (2 : Nat) = 1 + 1 from rfl,
            browser.parse_url_fuel_of_ok lib _ pu (hrt _ pu hu2) 1, if_pos hs]
        · rw [if_neg hs] at h
          exact absurd h (by simp)
      | error e2 =>
        cases e2 with
        | other m =>
          rw [browser.parse_url_fuel_of_other lib _ m hu2 0] at h
          exact absurd h (by simp)
        | relativeUrlWithoutBase =>
          rw [browser.parse_url_fuel_of_relative lib _ hu2 0, browser.parse_url_fuel] at h
          exact absurd h (by simp)

/-- Concrete url-library fragment with normalizing behavior ("http://X"
serializes to "http://x/") satisfying the round-trip guarantee, for the C9
witness. -/
def urlLibNormalizing : browser.UrlLib :=
  ⟨fun s =>
    if s = "http://X" then .ok ⟨"http", "http://x/"⟩
    else if s = "http://x/" then .ok ⟨"http", "http://x/"⟩
    else .error (.other "invalid")⟩

/-- Witness for C9: parse_url accepts "http://X" with normalized output
"http://x/", and applying parse_url to that output returns it unchanged. -/
theorem C9_witness :
    browser.parse_url urlLibNormalizing "http://X" = .ok "http://x/"
  ∧ browser.parse_url urlLibNormalizing "http://x/" = .ok "http://x/" := by
  have hrt : urlLibNormalizing.RoundTrip := by
    intro s u h
    simp only [urlLibNormalizing] at h ⊢
    by_cases h1 : s = "http://X"
    · rw [if_pos h1] at h
      simp only [Except.ok.injEq] at h
      subst h
      rfl
    · rw [if_neg h1] at h
      by_cases h2 : s = "http://x/"
      · rw [if_pos h2] at h
        simp only [Except.ok.injEq] at h
        subst h
        rfl
      · rw [if_neg h2] at h
        exact absurd h (by simp)
  have hbase : browser.parse_url urlLibNormalizing "http://X" = .ok "http://x/" := by
    rw [browser.parse_url, show (2 : Nat) = 1 + 1 from rfl,
      browser.parse_url_fuel_of_ok urlLibNormalizing _ ⟨"http", "http://x/"⟩ (by rfl) 1]
    norm_num
  exact ⟨hbase, C9_parse_url_idempotent urlLibNormalizing "http://X" "http://x/" hrt hbase⟩

namespace browser

/-- Abstract window geometry of a Firefox instance: the outer window size and
the chrome delta between outer and inner dimensions that the injected script
observes.  The viewport (inner) size is outer minus chrome; a viewport
screenshot has the inner dimensions.  Dimensions are integers, as in the
JavaScript arithmetic of the injected script. -/
structure Window where
  outerWidth : Int
  outerHeight : Int
  chromeWidth : Int
  chromeHeight : Int
deriving DecidableEq

/-- Inner (viewport) width: what `window.innerWidth` reports. -/
def Window.innerWidth (w : Window) : Int := w.outerWidth - w.chromeWidth

/-- Inner (viewport) height: what `window.innerHeight` reports. -/
def Window.innerHeight (w : Window) : Int := w.outerHeight - w.chromeHeight

/-- Embedding of `set_window_size` (`browser.rs` lines 158-172): send
`WebDriver:SetWindowRect` with the given width and height; the outer window
takes that size (the chrome is unchanged) and the returned rect echoes the
applied size. -/
def set_window_size (w : Window) (width height : Int) : Window × (Int × Int) :=
  ({ w with outerWidth := width, outerHeight := height }, (width, height))

/-- Embedding of `get_window_to_viewport_size` (`browser.rs` lines 262-278):
the injected script returns `[width + (outerWidth - innerWidth),
height + (outerHeight - innerHeight)]`. -/
def get_window_to_viewport_size (w : Window) (width height : Int) : Int × Int :=
  (width + (w.outerWidth - w.innerWidth), height + (w.outerHeight - w.innerHeight))

/-- Embedding of `set_viewport_size` (`browser.rs` lines 291-297): compute
the window size for the requested viewport via the delta script, apply it
with `set_window_size`, and return the requested viewport size. -/
def set_viewport_size (w : Window) (width height : Int) : Window × (Int × Int) :=
  let wh := get_window_to_viewport_size w width height
  let r := set_window_size w wh.1 wh.2
  (r.1, (width, height))

end browser

namespace routes

/-- Embedding of step 4 of the screenshot handler (`routes.rs` lines
113-115): default the requested dimensions to 800×600 and call
`browser.set_window_size` with them — the handler does not call
`set_viewport_size`. -/
def screenshot_resize (w : browser.Window) (width height : Option Int) :
    browser.Window × (Int × Int) :=
  browser.set_window_size w (width.getD 800) (height.getD 600)

end routes

/-- C3 fails on the code: the screenshot handler sizes the browser with
`set_window_size(width, height)` directly (routes.rs line 115), not with the
delta-script `set_viewport_size`.  In general the resulting viewport is the
requested size minus the chrome delta (first conjunct), while
`set_viewport_size` — which the handler never calls — would make the viewport
exactly the requested size (second conjunct).  Concretely, on a browser whose
chrome is 87 vertical pixels, a request with width=1042 and height=742 leaves
a 1042×655 viewport, so a viewport screenshot decodes to 1042×655 and not to
the claimed 1042×742; set_viewport_size would have yielded exactly 1042×742
(third and fourth conjuncts). -/
theorem C3_screenshot_sets_window_not_viewport :
    (∀ (w : browser.Window) (width height : Int),
      (routes.screenshot_resize w (some width) (some height)).1.innerWidth
          = width - w.chromeWidth
      ∧ (routes.screenshot_resize w (some width) (some height)).1.innerHeight
          = height - w.chromeHeight)
  ∧ (∀ (w : browser.Window) (width height : Int),
      (browser.set_viewport_size w width height).1.innerWidth = width
      ∧ (browser.set_viewport_size w width height).1.innerHeight = height)
  ∧ (let w1 := (routes.screenshot_resize ⟨800, 687, 0, 87⟩ (some 1042) (some 742)).1
     (w1.innerWidth, w1.innerHeight) = (1042, 655))
  ∧ (let w2 := (browser.set_viewport_size ⟨800, 687, 0, 87⟩ 1042 742).1
     (w2.innerWidth, w2.innerHeight) = (1042, 742)) := by
  refine ⟨?_, ?_, by decide, by decide⟩
  · intro w width height
    constructor <;>
      simp [routes.screenshot_resize, browser.set_window_size, browser.Window.innerWidth,
        browser.Window.innerHeight]
  · intro w width height
    constructor <;>
      simp [browser.set_viewport_size, browser.set_window_size,
        browser.get_window_to_viewport_size, browser.Window.innerWidth,
        browser.Window.innerHeight]

namespace api

/-- Error type of `crates/server/src/state.rs` lines 12-16, carrying the
display message of the wrapped deadpool error. -/
inductive StateError where
  | poolError (message : String)
deriving DecidableEq

/-- Error type of `crates/server/src/api.rs` lines 93-103. -/
inductive Error where
  | state (e : StateError)
  | browser (e : browser.Error)
  | queryRejection (body_text : String)
  | missingField (f : String)
deriving DecidableEq

end api

/-- Display messages of the response errors, from the `#[error]` attributes
in `response.rs`.  The unexpected byte is displayed as the character it was
cast to; the failure body of `CommandFailure` is rendered with Rust's Debug
formatting. -/
def response.Error.message : response.Error → String
  | .readByteCount => "read byte count failed"
  | .readByteCountLength c => "expected one byte, got: " ++ toString c
  | .unexpectedByte b => "expected byte: " ++ toString (Char.ofNat b)
  | .unexpectedEndOfResponse => "unexpected end of response"
  | .readByte => "read byte failed"
  | .responseToString => "convert to UTF-8 string failed"
  | .parseResponse => "parse response failed"
  | .commandFailure id f =>
      "command (id=" ++ toString id ++ ") failed: Failure \x7b error: \"" ++ f.error ++
      "\", message: \"" ++ f.message ++ "\", stacktrace: \"" ++ f.stacktrace ++ "\" \x7d"

/-- Display messages of the request errors, from the `#[error]` attributes in
`request.rs`; the `Response` variant is transparent.  The serde payload of
`ConvertJson` was dropped by the embedding, so its interpolated tail is
omitted. -/
def request.Error.message : request.Error → String
  | .convertJson => "convert message to json failed: "
  | .failedToWriteRequest => "write request to stream failed"
  | .commandIdMismatch r g =>
      "command id mismatch: expected " ++ toString r ++ ", got: " ++ toString g
  | .response e => e.message

/-- Display messages of the handshake errors, from the `#[error]` attributes
in `handshake.rs`; the `ParseResponse` variant is transparent. -/
def HandshakeError.message : HandshakeError → String
  | .parseResponse e => e.message
  | .unexpectedApplicationType t => "expected application type 'gecko', got: " ++ t
  | .unexpectedMarionetteProtocolVersion v =>
      "expected marionette protocol version 3, got: " ++ toString v

/-- Display messages of the marionette errors, from the `#[error]` attributes
in `marionette.rs`; `Handshake` and `Request` are transparent.  The Debug
payload of the timeout duration was dropped by the embedding. -/
def MarionetteError.message : MarionetteError → String
  | .connectionTimeout a => "connection timout: " ++ a
  | .handshake e => e.message
  | .request e => e.message

/-- Display messages of the browser errors, from the `#[error]` attributes in
`browser.rs`; `Profile`, `Process`, `Marionette` and `SerdeJson` are
transparent (the first two and the last carry the wrapped display as a
string in the embedding), the url-crate payload of `ParseUrl` displays its
own message. -/
def browser.Error.message : browser.Error → String
  | .profile => "profile error"
  | .process => "process error"
  | .marionette e => e.message
  | .serdeJson => "serde json error"
  | .childStatus s => "get child status failed: " ++ s
  | .decodeScreenshot => "decode screenshot failed: "
  | .parseUrl e => "parse url failed: " ++ e.libMessage
  | .unsupportedUrlProtocol =>
      "unsupported url protocol: only 'http://' and 'https://' are allowed"

/-- Display messages of the api errors: `State` and `Browser` are transparent,
`QueryRejection` displays the rejection, `MissingField` has its own format
string (api.rs line 101). -/
def api.Error.message : api.Error → String
  | .state (.poolError m) => m
  | .browser e => e.message
  | .queryRejection b => b
  | .missingField f => "missing field: " ++ f

namespace api

/-- HTTP error reply produced by `into_response`: a status code and the JSON
body `Json(Failure { cause })`, i.e. a {"cause": message} object. -/
structure ErrorResponse where
  status : Nat
  cause : String
deriving DecidableEq

/-- Embedding of `Error::into_response` (`api.rs` lines 105-133), arms in
source order: query rejections, missing fields and `Browser(ParseUrl)` map to
400 Bad Request; a Marionette command failure maps to 422 with
"<error>: <message>"; every other browser or state error falls into the
catch-all 500 Internal Server Error arm with its display message. -/
def into_response : Error → ErrorResponse
  | .queryRejection body => ⟨400, body⟩
  | .missingField f => ⟨400, "missing field: " ++ f⟩
  | .browser (.parseUrl e) => ⟨400, e.libMessage⟩
  | .browser (.marionette (.request (.response (.commandFailure _ f)))) =>
      ⟨422, f.error ++ ": " ++ f.message⟩
  | e => ⟨500, e.message⟩

end api

/-- C2 fails on the code: `into_response` maps `Browser(ParseUrl)` to 400 as
claimed (first conjunct), but it has no arm for
`Browser(UnsupportedUrlProtocol)` — the error produced by
`GET /screenshot?url=about:config` — which therefore falls into the
infrastructure catch-all and produces 500 Internal Server Error, not the
claimed 400 Bad Request (second conjunct).  The body is the
{"cause": message} envelope in both cases. -/
theorem C2_url_validation_status :
    (∀ e, api.into_response (.browser (.parseUrl e)) = ⟨400, e.libMessage⟩)
  ∧ api.into_response (.browser .unsupportedUrlProtocol)
      = ⟨500, "unsupported url protocol: only 'http://' and 'https://' are allowed"⟩ := by
  exact ⟨fun e => rfl, rfl⟩

namespace server

/-- Sequential close of the browsers removed by one retain pass (`server.rs`
lines 138-140): the for-loop awaits `browser.close()` in order and the `?`
operator returns at the first error.  Each entry of the list is the outcome
of the corresponding close (the success payload, a process status, is
irrelevant here; an error carries its display).  The result is the number of
close calls attempted and the error, if any. -/
def close_removed : List (Except String Unit) → Nat × Option String
  | [] => (0, none)
  | .ok () :: rest =>
    let r := close_removed rest
    (r.1 + 1, r.2)
  | .error e :: _ => (1, some e)

/-- Embedding of `retain_loop` (`server.rs` lines 126-142) over a finite
window of scheduled wake-ups: each pass sleeps `browser_max_age`, calls
`retain`, and closes the removed browsers sequentially; an error from any
close propagates out of the async function through `?`, ending the infinite
loop for the rest of the process.  Each list entry holds the close outcomes
of one pass.  The result is the per-pass attempted close counts (one entry
per pass that actually ran) and the terminating error, if any. -/
def retain_loop : List (List (Except String Unit)) → List Nat × Option String
  | [] => ([], none)
  | p :: rest =>
    match close_removed p with
    | (n, some e) => ([n], some e)
    | (n, none) =>
      let r := retain_loop rest
      (n :: r.1, r.2)

theorem close_removed_ok_prefix (a b : List (Except String Unit)) (e : String)
    (h : ∀ x ∈ a, x = .ok ()) :
    close_removed (a ++ .error e :: b) = (a.length + 1, some e) := by
  induction a with
  | nil => rfl
  | cons x a ih =>
    have hx := h x (by simp)
    subst hx
    rw [List.cons_append]
    show (let r := close_removed (a ++ .error e :: b); (r.1 + 1, r.2)) = _
    rw [ih fun y hy => h y (by simp [hy])]
    simp

end server

/-- C10: in the background eviction task, evicted browsers are closed
sequentially and the first failing close terminates the retain loop
permanently: when every earlier pass closed without error and the failing
pass holds `a.length` successful closes followed by a failing one, exactly
`pre.length + 1` passes ever run (none of the later scheduled passes
executes, whatever they are), the failing pass attempts only `a.length + 1`
closes (the entries after the failure are never closed), and the close error
is what terminates the task — while nothing here touches the pool serving
requests. -/
theorem C10_retain_loop_stops_after_close_error :
    ∀ (pre post : List (List (Except String Unit))) (a b : List (Except String Unit))
      (e : String),
      (∀ q ∈ pre, (server.close_removed q).2 = none) →
      (∀ x ∈ a, x = .ok ()) →
      server.retain_loop (pre ++ (a ++ .error e :: b) :: post)
        = ((pre.map fun q => (server.close_removed q).1) ++ [a.length + 1], some e) := by
  intro pre post a b e hpre ha
  induction pre with
  | nil =>
    rw [List.nil_append, server.retain_loop, server.close_removed_ok_prefix a b e ha]
    simp
  | cons q pre ih =>
    have hq : (server.close_removed q).2 = none := hpre q (by simp)
    rw [List.cons_append, server.retain_loop]
    rw [show server.close_removed q = ((server.close_removed q).1, none) from by
      rw [← hq]]
    rw [ih fun p hp => hpre p (by simp [hp])]
    simp

/-- Witness for C10 on a concrete schedule: pass one closes one browser
successfully; pass two fails on its second close (the third browser of the
pass is never closed); the two scheduled later passes never run. -/
theorem C10_witness :
    server.retain_loop
        [[.ok ()], [.ok (), .error "boom", .ok ()], [.ok ()], [.error "x"]]
      = ([1, 2], some "boom") := by
  have h := C10_retain_loop_stops_after_close_error [[.ok ()]] [[.ok ()], [.error "x"]]
    [.ok ()] [.ok ()] "boom"
    (by intro q hq; simp only [List.mem_singleton] at hq; subst hq; rfl)
    (by intro x hx; simpa using hx)
  simpa [server.close_removed] using h

end Pantin
